import Mathlib

/-!
Shallow embedding of `x/fee_grant/internal/types/expiration.go`.

Modelling conventions:
* Go `time.Time` is embedded as `Int` (an instant measured from the Go zero
  time); the Go zero value corresponds to `0`, `t.IsZero()` to `t = 0`,
  `a.Before b` to `a < b`, and `t.Add d` to `t + d`.
* Go `time.Duration` and `int64` are embedded as `Int`.
* A Go `error` result is embedded as `Except String`, where `.error msg`
  stands for `ErrInvalidDuration(msg)` (the only error kind this file raises).
* `MustStep` panics on error; the panic is embedded as `Option.none`.
-/

namespace FeeGrant

/-- Embedding of Go `time.Time`: an instant, zero value = `0`. -/
abbrev GoTime := Int

/-- Go `ExpiresAt` is a point in time where something expires.
It may be either block time or block height. -/
structure ExpiresAt where
  Time : GoTime
  Height : Int
deriving DecidableEq

/-- Go `ExpiresAtTime` creates an expiration at the given time. -/
def ExpiresAtTime (t : GoTime) : ExpiresAt :=
  { Time := t, Height := 0 }

/-- Go `ExpiresAtHeight` creates an expiration at the given height. -/
def ExpiresAtHeight (h : Int) : ExpiresAt :=
  { Time := 0, Height := h }

/-- Go `Duration` is a repeating unit of either clock time or number of blocks. -/
structure Duration where
  Clock : Int
  Block : Int
deriving DecidableEq

/-- Go `ClockDuration` creates a Duration by clock time. -/
def ClockDuration (d : Int) : Duration :=
  { Clock := d, Block := 0 }

/-- Go `BlockDuration` creates a Duration by block height. -/
def BlockDuration (h : Int) : Duration :=
  { Clock := 0, Block := h }

/-- Go `ExpiresAt.ValidateBasic` performs basic sanity checks; an empty
expiration is allowed. -/
def ExpiresAt.ValidateBasic (e : ExpiresAt) : Except String Unit :=
  if e.Time ≠ 0 ∧ e.Height ≠ 0 then .error "both time and height are set"
  else if e.Height < 0 then .error "negative height"
  else .ok ()

/-- Go `ExpiresAt.IsZero` returns true for an uninitialized struct. -/
def ExpiresAt.IsZero (e : ExpiresAt) : Bool :=
  e.Time == 0 && e.Height == 0

/-- Go `FastForward` produces a new expiration with the time or height set to
the new value, depending on what was set on the original expiration. -/
def ExpiresAt.FastForward (e : ExpiresAt) (t : GoTime) (h : Int) : ExpiresAt :=
  if e.Time ≠ 0 then ExpiresAtTime t
  else ExpiresAtHeight h

/-- Go `IsExpired` returns if the time or height is equal to or greater than the
defined expiration point (expired upon an exact match); a zero `ExpiresAt`
is never expired. `!t.Before(e.Time)` is embedded as `e.Time ≤ t`. -/
def ExpiresAt.IsExpired (e : ExpiresAt) (t : GoTime) (h : Int) : Bool :=
  if e.Time ≠ 0 ∧ e.Time ≤ t then true
  else decide (e.Height ≠ 0 ∧ e.Height ≤ h)

/-- Go `IsCompatible` returns true iff the two use the same units. -/
def ExpiresAt.IsCompatible (e : ExpiresAt) (p : Duration) : Bool :=
  if e.Time ≠ 0 then decide (0 < p.Clock)
  else decide (0 < p.Block)

/-- Go `Step` increases the expiration point by one Duration; it returns an
error if the Duration is incompatible. -/
def ExpiresAt.Step (e : ExpiresAt) (p : Duration) : Except String ExpiresAt :=
  if !(e.IsCompatible p) then
    .error "expires_at and Duration have different units"
  else if e.Time ≠ 0 then .ok { e with Time := e.Time + p.Clock }
  else .ok { e with Height := e.Height + p.Block }

/-- Go `MustStep` is like `Step`, but panics on error (`none` = panic). -/
def ExpiresAt.MustStep (e : ExpiresAt) (p : Duration) : Option ExpiresAt :=
  match e.Step p with
  | .ok r => some r
  | .error _ => none

/-- Go `PrepareForExport` deducts the dump height from the expiration, so that
after a hard fork the actual number of allowed blocks is constant. -/
def ExpiresAt.PrepareForExport (e : ExpiresAt) (dumpTime : GoTime)
    (dumpHeight : Int) : ExpiresAt :=
  if e.Height ≠ 0 then { e with Height := e.Height - dumpHeight }
  else e

/-- Go `Duration.ValidateBasic` performs basic sanity checks: exactly one field
must be set and it must be positive. -/
def Duration.ValidateBasic (p : Duration) : Except String Unit :=
  if p.Block = 0 ∧ p.Clock = 0 then .error "neither time and height are set"
  else if p.Block ≠ 0 ∧ p.Clock ≠ 0 then .error "both time and height are set"
  else if p.Block < 0 then .error "negative block step"
  else if p.Clock < 0 then .error "negative clock step"
  else .ok ()

/-- The spec's data-model invariants for `ExpiresAt`: at most one of the two
fields is non-zero, and the height is never negative. -/
def Invariants (e : ExpiresAt) : Prop :=
  (e.Time = 0 ∨ e.Height = 0) ∧ 0 ≤ e.Height

instance (e : ExpiresAt) : Decidable (Invariants e) := by
  unfold Invariants
  infer_instance

/-- Claim C2: `IsExpired t h` is true iff the time field is set and `t` is at
or after it, or the height field is non-zero and `h` has reached it; a zero
`ExpiresAt` is never expired; a pure time-point is expired exactly from its
boundary instant on, and a pure step-point with height `N` is expired at
step `N` but not at step `N - 1`. -/
theorem isExpired_spec (e : ExpiresAt) (t h : Int) :
    (e.IsExpired t h = true ↔
      (e.Time ≠ 0 ∧ e.Time ≤ t) ∨ (e.Height ≠ 0 ∧ e.Height ≤ h)) ∧
    (e.IsZero = true → e.IsExpired t h = false) ∧
    (e.Height = 0 → e.Time ≠ 0 →
      e.IsExpired e.Time h = true ∧ e.IsExpired (e.Time - 1) h = false) ∧
    (e.Time = 0 → e.Height ≠ 0 →
      e.IsExpired t e.Height = true ∧ e.IsExpired t (e.Height - 1) = false) := by
  unfold ExpiresAt.IsExpired ExpiresAt.IsZero
  refine ⟨?_, ?_, ?_, ?_⟩
  · split_ifs with hc <;> simp_all
  · intro hz
    simp only [Bool.and_eq_true, beq_iff_eq] at hz
    split_ifs with hc <;> simp_all
  · intro hh ht
    constructor <;> split_ifs with hc <;> simp_all <;> omega
  · intro ht hh
    constructor <;> split_ifs with hc <;> simp_all <;> omega

/-- Claim C2 witness at a concrete input. -/
theorem isExpired_spec_witness :
    ((ExpiresAtHeight 7).IsExpired 0 7 = true ∧
      (ExpiresAtHeight 7).IsExpired 0 6 = false) :=
  (isExpired_spec (ExpiresAtHeight 7) 0 7).2.2.2 (by decide) (by decide)

/-- Claim C5: `ExpiresAt.ValidateBasic` fails with `InvalidDuration` iff both
fields are simultaneously non-zero or the height is negative; the all-zero
value, `ExpiresAtTime t` for any `t`, and `ExpiresAtHeight h` for any
`h ≥ 0` are all accepted. -/
theorem expiresAt_validateBasic_spec (e : ExpiresAt) :
    ((∃ msg, e.ValidateBasic = .error msg) ↔
      (e.Time ≠ 0 ∧ e.Height ≠ 0) ∨ e.Height < 0) ∧
    (ExpiresAt.mk 0 0).ValidateBasic = .ok () ∧
    (∀ t, (ExpiresAtTime t).ValidateBasic = .ok ()) ∧
    (∀ h, 0 ≤ h → (ExpiresAtHeight h).ValidateBasic = .ok ()) := by
  refine ⟨?_, by rfl, ?_, ?_⟩
  · unfold ExpiresAt.ValidateBasic
    split_ifs with h1 h2 <;> simp_all <;> omega
  · intro t
    simp [ExpiresAtTime, ExpiresAt.ValidateBasic]
  · intro h hh
    simp [ExpiresAtHeight, ExpiresAt.ValidateBasic]
    omega

/-- Claim C5 witness at a concrete input. -/
theorem expiresAt_validateBasic_spec_witness :
    (ExpiresAtHeight 3).ValidateBasic = .ok () :=
  (expiresAt_validateBasic_spec (ExpiresAtHeight 3)).2.2.2 3 (by decide)

/-- Claim C6: `Duration.ValidateBasic` fails with `InvalidDuration` iff
neither field is set, both are set, or either field is negative;
equivalently, it accepts exactly the Durations with exactly one field set to
a positive value. -/
theorem duration_validateBasic_spec (p : Duration) :
    ((∃ msg, p.ValidateBasic = .error msg) ↔
      (p.Block = 0 ∧ p.Clock = 0) ∨ (p.Block ≠ 0 ∧ p.Clock ≠ 0) ∨
      p.Block < 0 ∨ p.Clock < 0) ∧
    (p.ValidateBasic = .ok () ↔
      (0 < p.Clock ∧ p.Block = 0) ∨ (0 < p.Block ∧ p.Clock = 0)) := by
  unfold Duration.ValidateBasic
  constructor
  · split_ifs <;> simp_all <;> omega
  · split_ifs <;> simp_all <;> omega

/-- Claim C8: `FastForward t h` on a time-point yields a time-point at
exactly `t` with zero height; on a step-point it yields a step-point at
exactly `h` with zero time. -/
theorem fastForward_spec (e : ExpiresAt) (t h : Int) :
    (e.Time ≠ 0 → e.FastForward t h = { Time := t, Height := 0 }) ∧
    (e.Time = 0 → e.Height ≠ 0 →
      e.FastForward t h = { Time := 0, Height := h }) := by
  unfold ExpiresAt.FastForward ExpiresAtTime ExpiresAtHeight
  constructor
  · intro ht
    simp [ht]
  · intro ht _
    simp [ht]

/-- Claim C8 witness at a concrete input. -/
theorem fastForward_spec_witness :
    (ExpiresAtTime 9).FastForward 4 6 = { Time := 4, Height := 0 } :=
  (fastForward_spec (ExpiresAtTime 9) 4 6).1 (by decide)

/-- Claim C7: `PrepareForExport dt dh` subtracts `dh` from the height of any
point with non-zero height and leaves the time field alone; a point with
zero height (in particular any time-point) passes through unchanged,
regardless of `dt`. -/
theorem prepareForExport_spec (e : ExpiresAt) (dt dh : Int) :
    (e.Height ≠ 0 →
      e.PrepareForExport dt dh = { Time := e.Time, Height := e.Height - dh }) ∧
    (e.Height = 0 → e.PrepareForExport dt dh = e) := by
  unfold ExpiresAt.PrepareForExport
  constructor
  · intro hh
    simp [hh]
  · intro hh
    simp [hh]

/-- Claim C7 witness: height 100 minus dump step 30 gives 70. -/
theorem prepareForExport_spec_witness :
    (ExpiresAtHeight 100).PrepareForExport 5 30 = { Time := 0, Height := 70 } :=
  (prepareForExport_spec (ExpiresAtHeight 100) 5 30).1 (by decide)

/-- Claim C3: `Step` returns an `InvalidDuration` error exactly when
`IsCompatible` is false, and `IsCompatible d` holds iff the point's active
unit matches `d`'s positive field: with the time field set it requires a
positive clock span, otherwise a positive block count. -/
theorem step_error_iff_incompatible (e : ExpiresAt) (d : Duration) :
    ((∃ msg, e.Step d = .error msg) ↔ e.IsCompatible d = false) ∧
    (e.Time ≠ 0 → (e.IsCompatible d = true ↔ 0 < d.Clock)) ∧
    (e.Time = 0 → (e.IsCompatible d = true ↔ 0 < d.Block)) := by
  refine ⟨?_, ?_, ?_⟩
  · unfold ExpiresAt.Step
    split_ifs with hc <;> simp_all
  · intro ht
    simp [ExpiresAt.IsCompatible, ht]
  · intro ht
    simp [ExpiresAt.IsCompatible, ht]

/-- Claim C3 witness at a concrete input. -/
theorem step_error_iff_incompatible_witness :
    (ExpiresAtTime 5).IsCompatible (ClockDuration 2) = true :=
  ((step_error_iff_incompatible (ExpiresAtTime 5) (ClockDuration 2)).2.1
    (by decide)).2 (by decide)

/-- Claim C4: on a compatible pair, `Step` preserves the unit family and adds
exactly: a time-point (height zero) stepped by a clock Duration yields a
time-point at `Time + Clock` with height still zero; a step-point (time
zero) stepped by a block Duration yields a step-point at `Height + Block`
with time still zero. -/
theorem step_adds_exactly (e : ExpiresAt) (d : Duration)
    (hc : e.IsCompatible d = true) :
    (e.Time ≠ 0 → e.Height = 0 →
      e.Step d = .ok { Time := e.Time + d.Clock, Height := 0 }) ∧
    (e.Time = 0 → e.Height ≠ 0 →
      e.Step d = .ok { Time := 0, Height := e.Height + d.Block }) := by
  obtain ⟨T, H⟩ := e
  unfold ExpiresAt.Step
  constructor
  · intro ht hh
    simp only at ht hh
    subst hh
    simp [hc, ht]
  · intro ht _
    simp only at ht
    subst ht
    simp [hc]

/-- Claim C4 witness at a concrete input. -/
theorem step_adds_exactly_witness :
    (ExpiresAtTime 5).Step (ClockDuration 2) = .ok { Time := 7, Height := 0 } :=
  (step_adds_exactly (ExpiresAtTime 5) (ClockDuration 2) (by decide)).1
    (by decide) (by decide)

/-- Claim C9: when `IsCompatible` holds, `MustStep` does not panic and
returns exactly the success value of `Step`; when it fails, `MustStep`
panics (modelled as `none`) instead of returning an error. -/
theorem mustStep_spec (e : ExpiresAt) (d : Duration) :
    (e.IsCompatible d = true →
      ∃ r, e.Step d = .ok r ∧ e.MustStep d = some r) ∧
    (e.IsCompatible d = false → e.MustStep d = none) := by
  unfold ExpiresAt.MustStep ExpiresAt.Step
  constructor
  · intro hc
    split_ifs with ht <;> simp_all
  · intro hc
    simp [hc]

/-- Claim C9 witness at a concrete input. -/
theorem mustStep_spec_witness :
    ∃ r, (ExpiresAtHeight 4).Step (BlockDuration 3) = .ok r ∧
      (ExpiresAtHeight 4).MustStep (BlockDuration 3) = some r :=
  (mustStep_spec (ExpiresAtHeight 4) (BlockDuration 3)).1 (by decide)

/-- Claim C10: the all-zero sentinel is dispatched as step-based: on it,
`IsCompatible d` holds iff `d`'s block count is positive, `FastForward t h`
returns a step-point at `h`, and `Step` with a positive block Duration
succeeds with a step-point whose height is that block count. -/
theorem zero_sentinel_is_step_based (e : ExpiresAt)
    (hz : e.Time = 0 ∧ e.Height = 0) (d : Duration) (t h : Int) :
    (e.IsCompatible d = true ↔ 0 < d.Block) ∧
    (e.FastForward t h = { Time := 0, Height := h }) ∧
    (0 < d.Block → e.Step d = .ok { Time := 0, Height := d.Block }) := by
  obtain ⟨ht, hh⟩ := hz
  refine ⟨?_, ?_, ?_⟩
  · simp [ExpiresAt.IsCompatible, ht]
  · simp [ExpiresAt.FastForward, ExpiresAtHeight, ht]
  · intro hb
    simp [ExpiresAt.Step, ExpiresAt.IsCompatible, ht, hh, hb]

/-- Claim C10 witness at a concrete input. -/
theorem zero_sentinel_is_step_based_witness :
    (ExpiresAt.mk 0 0).FastForward 11 13 = { Time := 0, Height := 13 } :=
  (zero_sentinel_is_step_based (ExpiresAt.mk 0 0) (by decide)
    (BlockDuration 1) 11 13).2.1

/-- Claim C1 counterexample: `ExpiresAtHeight 5` satisfies both data-model
invariants and the dump step `10` is non-negative, yet
`PrepareForExport 0 10` produces height `-5`, violating the
non-negativity invariant. -/
theorem prepareForExport_breaks_invariants :
    Invariants (ExpiresAtHeight 5) ∧ (0 : Int) ≤ 10 ∧
    (ExpiresAtHeight 5).PrepareForExport 0 10 = { Time := 0, Height := -5 } ∧
    ¬ Invariants ((ExpiresAtHeight 5).PrepareForExport 0 10) := by
  refine ⟨by decide, by decide, by rfl, by decide⟩

/-- Claim C1 (amended): starting from a value satisfying the invariants,
`Step` with a Duration passing `ValidateBasic`, `FastForward` with any
reference step `≥ 0`, and `PrepareForExport` with a dump step `dh` such
that `0 ≤ dh` and additionally `dh ≤ Height` whenever the height is
non-zero, each return a value satisfying both invariants again. -/
theorem operations_preserve_invariants (e : ExpiresAt) (hInv : Invariants e) :
    (∀ d r, d.ValidateBasic = .ok () → e.Step d = .ok r → Invariants r) ∧
    (∀ t h, 0 ≤ h → Invariants (e.FastForward t h)) ∧
    (∀ dt dh, 0 ≤ dh → (e.Height = 0 ∨ dh ≤ e.Height) →
      Invariants (e.PrepareForExport dt dh)) := by
  obtain ⟨T, H⟩ := e
  obtain ⟨hone, hpos⟩ := hInv
  simp only at hone hpos
  refine ⟨?_, ?_, ?_⟩
  · intro d r hd hs
    unfold ExpiresAt.Step ExpiresAt.IsCompatible at hs
    by_cases ht : T = 0
    · subst ht
      by_cases hb : 0 < d.Block
      · simp [hb] at hs
        subst hs
        refine ⟨Or.inl rfl, ?_⟩
        show (0 : Int) ≤ H + d.Block
        omega
      · simp [hb] at hs
    · by_cases hcl : 0 < d.Clock
      · simp [ht, hcl] at hs
        subst hs
        rcases hone with h0 | h0
        · exact absurd h0 ht
        · refine ⟨Or.inr ?_, ?_⟩ <;> simpa [h0]
      · simp [ht, hcl] at hs
  · intro t h hh
    unfold ExpiresAt.FastForward ExpiresAtTime ExpiresAtHeight
    split_ifs <;> simp_all [Invariants]
  · intro dt dh hdh hle
    unfold ExpiresAt.PrepareForExport
    split_ifs with hh <;> simp_all [Invariants] <;> omega

/-- Claim C1 witness at a concrete input. -/
theorem operations_preserve_invariants_witness :
    Invariants ((ExpiresAtHeight 100).PrepareForExport 0 30) :=
  (operations_preserve_invariants (ExpiresAtHeight 100) (by decide)).2.2
    0 30 (by decide) (Or.inr (by decide))

end FeeGrant
